import Mathlib

/-!
Shallow embedding of the Flappy Bird core (src/App.js).

JavaScript numbers on the values this program manipulates are modelled as
rationals (ℚ); `Math.floor` is `Int.floor`.  `Math.random()` draws are made
explicit parameters `r : ℚ` with `0 ≤ r < 1`.  The screen dimensions
`SCREEN_WIDTH` / `SCREEN_HEIGHT` come from `Dimensions.get` at runtime, so they
are parameters `W H : ℚ` of every definition that uses them.

React state is flattened into an explicit `GameState`.  One important closure
fact is kept explicit: the game-loop effect (`useEffect`, deps `[running]`)
creates its `setInterval` callback once, in the render where `running` became
`true`; the `triggerGameOver` it closes over is the `useCallback` value of that
render, whose captured `score` is the score at that render (always `0`, since
a game only starts with `score = 0`).  `triggerGameOver` and `tick` therefore
take that captured score as the explicit parameter `capturedScore`.
-/

/-- Axis-aligned rectangle `(x1, y1, x2, y2)` as built inline in the
collision pass of src/App.js. -/
structure Rect where
  x1 : ℚ
  y1 : ℚ
  x2 : ℚ
  y2 : ℚ
deriving DecidableEq

/-- `const intersects = (r, s) => !(r.x2 < s.x1 || r.x1 > s.x2 || r.y2 < s.y1 || r.y1 > s.y2)` -/
def intersects (r s : Rect) : Bool :=
  !(decide (r.x2 < s.x1) || decide (r.x1 > s.x2) || decide (r.y2 < s.y1) || decide (r.y1 > s.y2))

/-- `const BIRD_SIZE = 40` -/
def BIRD_SIZE : ℚ := 40

/-- `const GRAVITY = 0.6` -/
def GRAVITY : ℚ := 3 / 5

/-- `const JUMP_VELOCITY = -10.5` -/
def JUMP_VELOCITY : ℚ := -21 / 2

/-- `const PIPE_WIDTH = 70` -/
def PIPE_WIDTH : ℚ := 70

/-- `const PIPE_GAP = 170` -/
def PIPE_GAP : ℚ := 170

/-- `const PIPE_SPEED = 3.2` -/
def PIPE_SPEED : ℚ := 16 / 5

/-- `function randomTopHeight()`: `Math.floor(Math.random() * (maxTop - minTop)) + minTop`
with `minTop = 60`, `maxTop = SCREEN_HEIGHT - 200`; the random draw is the
parameter `r`. -/
def randomTopHeight (H r : ℚ) : ℚ :=
  let minTop : ℚ := 60
  let maxTop : ℚ := H - 200
  ((⌊r * (maxTop - minTop)⌋ : ℤ) : ℚ) + minTop

/-- One pipe record `{ x, topHeight, scored }`. -/
structure Pipe where
  x : ℚ
  topHeight : ℚ
  scored : Bool
deriving DecidableEq

/-- The initial pipe list built in the `useState` initializer and in
`resetGame`: `startX1 = SCREEN_WIDTH + 100`, `startX2 = startX1 + SCREEN_WIDTH * 0.6`,
two pipes with fresh random top heights (draws `r1`, `r2`) and `scored: false`. -/
def initialPipes (W H r1 r2 : ℚ) : List Pipe :=
  let startX1 := W + 100
  let startX2 := startX1 + W * (3 / 5)
  [ { x := startX1, topHeight := randomTopHeight H r1, scored := false },
    { x := startX2, topHeight := randomTopHeight H r2, scored := false } ]

/-- The recycle step of the first `setPipes` pass: if `p.x + PIPE_WIDTH < 0`,
reassign `p.x = SCREEN_WIDTH + Math.random() * 120 + 60` (draw `rx`),
`p.topHeight = randomTopHeight()` (draw `rt`), `p.scored = false`. -/
def recyclePipe (W H rx rt : ℚ) (p : Pipe) : Pipe :=
  if p.x + PIPE_WIDTH < 0 then
    { x := W + rx * 120 + 60, topHeight := randomTopHeight H rt, scored := false }
  else p

/-- One pipe of the first `setPipes` pass: move left by `PIPE_SPEED`, then
recycle if fully off-screen. -/
def movePipe (W H rx rt : ℚ) (p : Pipe) : Pipe :=
  recyclePipe W H rx rt { p with x := p.x - PIPE_SPEED }

/-- The whole first `setPipes` pass, per slot; the random draws for slot `i`
are `rx i` and `rt i`; `i` is the index of the head pipe. -/
def advancePipes (W H : ℚ) (rx rt : ℕ → ℚ) (i : ℕ) : List Pipe → List Pipe
  | [] => []
  | p :: rest => movePipe W H (rx i) (rt i) p :: advancePipes W H rx rt (i + 1) rest

/-- `BIRD_X = SCREEN_WIDTH * 0.25`. -/
def BIRD_X (W : ℚ) : ℚ := W * (1 / 4)

/-- The bird's bounding rectangle built in the collision pass, at vertical
position `y` (the current `birdY.current`). -/
def birdRect (W y : ℚ) : Rect :=
  { x1 := BIRD_X W, y1 := y, x2 := BIRD_X W + BIRD_SIZE, y2 := y + BIRD_SIZE }

/-- `const topPipe = { x1: p.x, y1: 0, x2: p.x + PIPE_WIDTH, y2: p.topHeight }` -/
def topPipeRect (p : Pipe) : Rect :=
  { x1 := p.x, y1 := 0, x2 := p.x + PIPE_WIDTH, y2 := p.topHeight }

/-- `const bottomPipe = { x1: p.x, y1: p.topHeight + PIPE_GAP, x2: p.x + PIPE_WIDTH, y2: SCREEN_HEIGHT }` -/
def bottomPipeRect (H : ℚ) (p : Pipe) : Rect :=
  { x1 := p.x, y1 := p.topHeight + PIPE_GAP, x2 := p.x + PIPE_WIDTH, y2 := H }

/-- The per-pipe collision test of the second `setPipes` pass. -/
def pipeCollides (W H y : ℚ) (p : Pipe) : Bool :=
  intersects (birdRect W y) (topPipeRect p) || intersects (birdRect W y) (bottomPipeRect H p)

/-- `const birdCenterX = BIRD_X + BIRD_SIZE / 2` -/
def birdCenterX (W : ℚ) : ℚ := BIRD_X W + BIRD_SIZE / 2

/-- Result of the second `setPipes` pass: the new pipe array, whether any
pipe collided with the bird, and how many points were gained. -/
structure PassResult where
  pipes : List Pipe
  collided : Bool
  gained : ℕ
deriving DecidableEq

/-- The second `setPipes` pass of the tick: `prev.map` over the pipes,
accumulating `collided` (OR of the per-pipe intersection tests) and
`gained` (+1 for each pipe with `!p.scored && birdCenterX > p.x + PIPE_WIDTH`,
which is returned with `scored: true`). -/
def collisionScoringPass (W H y : ℚ) : List Pipe → PassResult
  | [] => { pipes := [], collided := false, gained := 0 }
  | p :: rest =>
    let r := collisionScoringPass W H y rest
    let hit := pipeCollides W H y p
    if p.scored = false ∧ birdCenterX W > p.x + PIPE_WIDTH then
      { pipes := { p with scored := true } :: r.pipes,
        collided := hit || r.collided, gained := 1 + r.gained }
    else
      { pipes := p :: r.pipes, collided := hit || r.collided, gained := r.gained }

/-- The React state of `App`, flattened: `running`, `gameOver`, `score`,
`best` (`useState`); `birdY`, `birdV` (`useRef`); `pipes` (`useState`). -/
structure GameState where
  running : Bool
  gameOver : Bool
  score : ℕ
  best : ℕ
  birdY : ℚ
  birdV : ℚ
  pipes : List Pipe
deriving DecidableEq

/-- `triggerGameOver`: clears the interval (not modelled beyond `running`),
sets `gameOver`, clears `running`, and runs
`setBest((b) => (score > b ? score : b))` where `score` is the value closed
over by this `useCallback` instance — the explicit parameter `capturedScore`. -/
def triggerGameOver (capturedScore : ℕ) (s : GameState) : GameState :=
  { s with gameOver := true, running := false,
           best := if s.best < capturedScore then capturedScore else s.best }

/-- Result of the physics-and-clamp prefix of the tick body. -/
structure IntegrateResult where
  y : ℚ
  v : ℚ
  floorHit : Bool
deriving DecidableEq

/-- Lines 77-86 of src/App.js: `birdV += GRAVITY; birdY += birdV;` then the
ceiling clamp `if (birdY < 0) birdY = 0;` and the floor check
`if (birdY + BIRD_SIZE > SCREEN_HEIGHT)` which clamps to
`SCREEN_HEIGHT - BIRD_SIZE` and signals the fatal floor collision. -/
def integrate (H y v : ℚ) : IntegrateResult :=
  let v2 := v + GRAVITY
  let y2 := y + v2
  let y3 := if y2 < 0 then 0 else y2
  if y3 + BIRD_SIZE > H then
    { y := H - BIRD_SIZE, v := v2, floorHit := true }
  else
    { y := y3, v := v2, floorHit := false }

/-- The `setInterval` callback body: physics and clamping; on floor collision
`triggerGameOver` and `return` (both `setPipes` passes are skipped).
Otherwise the move/recycle pass, then the collision/scoring pass against the
moved pipes, `if (gained > 0) setScore((s) => s + gained)`, and
`if (collided) triggerGameOver()`.  `capturedScore` is the score captured by
the `triggerGameOver` closure this callback holds. -/
def tick (W H : ℚ) (capturedScore : ℕ) (rx rt : ℕ → ℚ) (s : GameState) : GameState :=
  let r := integrate H s.birdY s.birdV
  if r.floorHit then
    triggerGameOver capturedScore { s with birdY := r.y, birdV := r.v }
  else
    let advanced := advancePipes W H rx rt 0 s.pipes
    let pass := collisionScoringPass W H r.y advanced
    let s2 : GameState :=
      { s with birdY := r.y, birdV := r.v, pipes := pass.pipes,
               score := if 0 < pass.gained then s.score + pass.gained else s.score }
    if pass.collided then triggerGameOver capturedScore s2 else s2

/-- `startIfNeeded`: `if (!running && !gameOver) setRunning(true);` then,
unconditionally, `birdV.current = JUMP_VELOCITY` — the jump is applied
outside the guard. -/
def startIfNeeded (s : GameState) : GameState :=
  let s2 := if s.running = false ∧ s.gameOver = false then { s with running := true } else s
  { s2 with birdV := JUMP_VELOCITY }

/-- `resetGame`: stops the game, clears `gameOver`, resets `score`, resets the
bird to `SCREEN_HEIGHT * 0.45` with velocity `0`, and rebuilds the initial
pipes (fresh draws `r1`, `r2`); `best` is untouched. -/
def resetGame (W H r1 r2 : ℚ) (s : GameState) : GameState :=
  { s with running := false, gameOver := false, score := 0,
           birdY := H * (9 / 20), birdV := 0,
           pipes := initialPipes W H r1 r2 }

/-! ### Helper lemmas -/

theorem randomTopHeight_eq (H r : ℚ) :
    randomTopHeight H r = ((⌊r * (H - 260)⌋ : ℤ) : ℚ) + 60 := by
  simp only [randomTopHeight]
  have h : H - 200 - 60 = H - 260 := by ring
  rw [h]

theorem randomTopHeight_lower (H r : ℚ) (h0 : 0 ≤ r) (hH : 260 < H) :
    60 ≤ randomTopHeight H r := by
  rw [randomTopHeight_eq]
  have hx : (0 : ℚ) ≤ r * (H - 260) := mul_nonneg h0 (by linarith)
  have : (0 : ℤ) ≤ ⌊r * (H - 260)⌋ := Int.floor_nonneg.mpr hx
  have : (0 : ℚ) ≤ ((⌊r * (H - 260)⌋ : ℤ) : ℚ) := by exact_mod_cast this
  linarith

theorem randomTopHeight_upper (H r : ℚ) (h1 : r < 1) (hH : 260 < H) :
    randomTopHeight H r < H - 200 := by
  rw [randomTopHeight_eq]
  have hfl : ((⌊r * (H - 260)⌋ : ℤ) : ℚ) ≤ r * (H - 260) := Int.floor_le _
  have hlt : r * (H - 260) < 1 * (H - 260) :=
    mul_lt_mul_of_pos_right h1 (by linarith)
  linarith


/-! ### C8: rectangle intersection -/

/-- C8: for rectangles `A`, `B` with `x1 ≤ x2`, `y1 ≤ y2`, `intersects A B`
is true iff `A` is not strictly left of, strictly right of, strictly above,
or strictly below `B`; in particular two rectangles sharing exactly one
vertical edge (`A.x2 = B.x1`) are reported as intersecting. -/
theorem C8_intersects (A B : Rect)
    (hA1 : A.x1 ≤ A.x2) (hA2 : A.y1 ≤ A.y2) (hB1 : B.x1 ≤ B.x2) (hB2 : B.y1 ≤ B.y2) :
    (intersects A B = true ↔
      ¬(A.x2 < B.x1 ∨ B.x2 < A.x1 ∨ A.y2 < B.y1 ∨ B.y2 < A.y1))
  ∧ (A.x2 = B.x1 → A.y1 ≤ B.y2 → B.y1 ≤ A.y2 → intersects A B = true) := by
  have hiff : intersects A B = true ↔
      ¬(A.x2 < B.x1 ∨ B.x2 < A.x1 ∨ A.y2 < B.y1 ∨ B.y2 < A.y1) := by
    simp only [intersects, Bool.not_eq_true', Bool.or_eq_false_iff,
      decide_eq_false_iff_not, not_lt, gt_iff_lt]
    push_neg
    tauto
  refine ⟨hiff, fun he h1 h2 => hiff.mpr ?_⟩
  push_neg
  refine ⟨by linarith, by linarith, by linarith, by linarith⟩

/-- C8 witness: the unit concrete instance, with two rectangles sharing the
vertical edge `x = 10`. -/
theorem C8_intersects_witness :
    intersects ⟨0, 0, 10, 10⟩ ⟨10, 0, 20, 10⟩ = true :=
  (C8_intersects ⟨0, 0, 10, 10⟩ ⟨10, 0, 20, 10⟩
      (by norm_num) (by norm_num) (by norm_num) (by norm_num)).2
    rfl (by norm_num) (by norm_num)

/-! ### C2: input during GameOver -/

/-- C2 counterexample: in the GameOver phase, a press (`startIfNeeded`) is
not a session no-op as the claim states — it overwrites the actor's velocity
with the jump impulse (line 62 of src/App.js sits outside the
`!running && !gameOver` guard). -/
theorem C2_counterexample :
    (startIfNeeded
        { running := false, gameOver := true, score := 7, best := 5,
          birdY := 100, birdV := 0, pipes := [] }).birdV ≠
      (GameState.mk false true 7 5 100 0 []).birdV := by
  simp [startIfNeeded, JUMP_VELOCITY]

/-- C2 amended: while `gameOver` holds, a press leaves the phase flags, the
score, the best value, the actor's position and the obstacles unchanged, but
it does overwrite the actor's velocity with `JUMP_VELOCITY`. -/
theorem C2_amended (s : GameState) (h : s.gameOver = true) :
    startIfNeeded s = { s with birdV := JUMP_VELOCITY } := by
  simp [startIfNeeded, h]

/-- C2 witness: the amended statement at a concrete GameOver state. -/
theorem C2_amended_witness :
    startIfNeeded
        { running := false, gameOver := true, score := 7, best := 5,
          birdY := 100, birdV := 0, pipes := [] } =
      { running := false, gameOver := true, score := 7, best := 5,
        birdY := 100, birdV := JUMP_VELOCITY, pipes := [] } :=
  C2_amended _ rfl

/-! ### C5: integration step -/

/-- C5 counterexample: from `y = 100`, `v = 0` (no impulse, no clamping) the
position after the tick is `100 + (0 + GRAVITY)`, not `100 + 0`: the position
changes by the post-update velocity, not by the pre-tick velocity as the
claim states. -/
theorem C5_counterexample :
    (integrate 800 100 0).y = 100 + (0 + GRAVITY)
  ∧ (integrate 800 100 0).y ≠ 100 + 0 := by
  constructor
  · simp only [integrate]
    norm_num [GRAVITY, BIRD_SIZE]
  · simp only [integrate]
    norm_num [GRAVITY, BIRD_SIZE]

/-- C5 amended: for every tick with no impulse and no clamping, the velocity
strictly increases by exactly `GRAVITY`, and the position changes by exactly
the post-update velocity `v + GRAVITY` (the pre-tick velocity plus gravity). -/
theorem C5_amended (H y v : ℚ) (h0 : 0 ≤ y + (v + GRAVITY))
    (h1 : y + (v + GRAVITY) + BIRD_SIZE ≤ H) :
    integrate H y v = { y := y + (v + GRAVITY), v := v + GRAVITY, floorHit := false }
  ∧ v < v + GRAVITY := by
  have hin : ¬ (y + (v + GRAVITY) < 0) := not_lt.mpr h0
  have hout : ¬ (H < y + (v + GRAVITY) + BIRD_SIZE) := not_lt.mpr h1
  constructor
  · simp [integrate, hin, hout]
  · nlinarith [show (0:ℚ) < GRAVITY by norm_num [GRAVITY]]

/-- C5 witness: the amended statement at `H = 800`, `y = 100`, `v = 0`. -/
theorem C5_amended_witness :
    integrate 800 100 0 = { y := 100 + (0 + GRAVITY), v := 0 + GRAVITY, floorHit := false }
  ∧ (0 : ℚ) < 0 + GRAVITY := by
  have h := C5_amended 800 100 0 (by norm_num [GRAVITY]) (by norm_num [GRAVITY, BIRD_SIZE])
  exact ⟨h.1, h.2⟩


/-! ### C1: best update at game over -/

/-- C1: the game-loop interval callback holds the `triggerGameOver` closure
created when `running` became true, whose captured `score` is `0`.  At a
collision with session `score = 7` and `best = 5`, the transition therefore
leaves `best = 5` — not `max(best, score) = 7` as the claim states.  Here the
tick hits the floor (`birdY = 790`, `birdV = 20`, screen `400 × 800`). -/
theorem C1_stale_best_eval :
    (tick 400 800 0 (fun _ => 1/2) (fun _ => 1/2)
        { running := true, gameOver := false, score := 7, best := 5,
          birdY := 790, birdV := 20, pipes := [] }).best = 5
  ∧ (tick 400 800 0 (fun _ => 1/2) (fun _ => 1/2)
        { running := true, gameOver := false, score := 7, best := 5,
          birdY := 790, birdV := 20, pipes := [] }).gameOver = true
  ∧ (tick 400 800 0 (fun _ => 1/2) (fun _ => 1/2)
        { running := true, gameOver := false, score := 7, best := 5,
          birdY := 790, birdV := 20, pipes := [] }).score = 7 := by
  have h : integrate 800 790 20 = { y := 760, v := 103/5, floorHit := true } := by
    simp [integrate, GRAVITY, BIRD_SIZE]
    norm_num
  refine ⟨?_, ?_, ?_⟩ <;> simp [tick, h, triggerGameOver]

/-! ### C9: configuration validation -/

/-- C9: with `SCREEN_HEIGHT = 100` the range `[60, SCREEN_HEIGHT - 200)` of
`randomTopHeight` is empty, yet nothing signals a configuration error: the
draw `r = 1/2` yields the degenerate value `-20` (below `minTop = 60`) and
the initial pipe list is still constructed. -/
theorem C9_no_config_validation :
    randomTopHeight 100 (1/2) = -20
  ∧ randomTopHeight 100 (1/2) < 60
  ∧ (initialPipes 50 100 (1/2) (1/2)).length = 2 := by
  have h : randomTopHeight 100 (1/2) = -20 := by
    rw [randomTopHeight_eq]
    norm_num
  exact ⟨h, by rw [h]; norm_num, rfl⟩


/-! ### C4: clamping and the short-circuit on floor collision -/

theorem integrate_floorHit_eq (H y v : ℚ) (h : (integrate H y v).floorHit = true) :
    integrate H y v = { y := H - BIRD_SIZE, v := v + GRAVITY, floorHit := true } := by
  by_cases hc : H < (if y + (v + GRAVITY) < 0 then (0:ℚ) else y + (v + GRAVITY)) + BIRD_SIZE
  · simp [integrate, hc]
  · simp [integrate, hc] at h

/-- C4: after integration, if the position went below `0` it is clamped to
`0` with the velocity untouched and no floor collision is signalled; if the
(clamped) position plus `BIRD_SIZE` exceeds `H`, the position is clamped to
`H - BIRD_SIZE` and the floor collision is signalled, and the tick then
short-circuits: it is exactly `triggerGameOver` on the clamped state, the
obstacle advance and collision/scoring passes are skipped (pipes and score
unchanged), and the tick ends the game. -/
theorem C4_clamping (W H : ℚ) (c : ℕ) (rx rt : ℕ → ℚ) (y v : ℚ) (s : GameState) :
    (y + (v + GRAVITY) < 0 → BIRD_SIZE ≤ H →
        integrate H y v = { y := 0, v := v + GRAVITY, floorHit := false })
  ∧ (0 ≤ y + (v + GRAVITY) → H < y + (v + GRAVITY) + BIRD_SIZE →
        integrate H y v = { y := H - BIRD_SIZE, v := v + GRAVITY, floorHit := true })
  ∧ ((integrate H s.birdY s.birdV).floorHit = true →
        tick W H c rx rt s =
          triggerGameOver c { s with birdY := H - BIRD_SIZE, birdV := s.birdV + GRAVITY }
        ∧ (tick W H c rx rt s).pipes = s.pipes
        ∧ (tick W H c rx rt s).score = s.score
        ∧ (tick W H c rx rt s).gameOver = true) := by
  refine ⟨?_, ?_, ?_⟩
  · intro hneg hsize
    simp [integrate, hneg, not_lt]
    exact hsize
  · intro hnn hover
    have hin : ¬ (y + (v + GRAVITY) < 0) := not_lt.mpr hnn
    simp [integrate, hin, hover]
  · intro hfh
    have hint := integrate_floorHit_eq H s.birdY s.birdV hfh
    have ht : tick W H c rx rt s =
        triggerGameOver c { s with birdY := H - BIRD_SIZE, birdV := s.birdV + GRAVITY } := by
      simp [tick, hint]
    refine ⟨ht, ?_, ?_, ?_⟩ <;> simp [ht, triggerGameOver]

/-- C4 witness: the ceiling clamp at `y = 5`, `v = -10` and the floor clamp
with short-circuit at `y = 750`, `v = 20`, screen `400 × 800`. -/
theorem C4_clamping_witness :
    integrate 800 5 (-10) = { y := 0, v := -10 + GRAVITY, floorHit := false }
  ∧ integrate 800 750 20 = { y := 800 - BIRD_SIZE, v := 20 + GRAVITY, floorHit := true }
  ∧ (tick 400 800 0 (fun _ => 0) (fun _ => 0)
        { running := true, gameOver := false, score := 3, best := 5,
          birdY := 750, birdV := 20, pipes := [] }).score = 3
  ∧ (tick 400 800 0 (fun _ => 0) (fun _ => 0)
        { running := true, gameOver := false, score := 3, best := 5,
          birdY := 750, birdV := 20, pipes := [] }).gameOver = true := by
  have h1 := (C4_clamping 400 800 0 (fun _ => 0) (fun _ => 0) 5 (-10)
      { running := true, gameOver := false, score := 3, best := 5,
        birdY := 750, birdV := 20, pipes := [] }).1
    (by norm_num [GRAVITY]) (by norm_num [BIRD_SIZE])
  have h2 := (C4_clamping 400 800 0 (fun _ => 0) (fun _ => 0) 750 20
      { running := true, gameOver := false, score := 3, best := 5,
        birdY := 750, birdV := 20, pipes := [] }).2.1
    (by norm_num [GRAVITY]) (by norm_num [GRAVITY, BIRD_SIZE])
  have h3 := (C4_clamping 400 800 0 (fun _ => 0) (fun _ => 0) 750 20
      { running := true, gameOver := false, score := 3, best := 5,
        birdY := 750, birdV := 20, pipes := [] }).2.2
    (by rw [h2])
  exact ⟨h1, h2, h3.2.2.1, h3.2.2.2⟩

/-! ### C10: best never decreases -/

/-- C10: the best value never decreases under any operation of the program:
a simulation tick, a press input, a reset, and the game-over transition each
produce a state whose `best` is at least the old one. -/
theorem C10_best_monotone (W H r1 r2 : ℚ) (c : ℕ) (rx rt : ℕ → ℚ) (s : GameState) :
    s.best ≤ (tick W H c rx rt s).best
  ∧ s.best ≤ (startIfNeeded s).best
  ∧ s.best ≤ (resetGame W H r1 r2 s).best
  ∧ s.best ≤ (triggerGameOver c s).best := by
  have htg : ∀ t : GameState, t.best ≤ (triggerGameOver c t).best := by
    intro t
    simp only [triggerGameOver]
    split
    · omega
    · exact le_refl _
  refine ⟨?_, ?_, ?_, htg s⟩
  · simp only [tick]
    split
    · exact htg _
    · split
      · exact htg _
      · exact le_refl _
  · simp only [startIfNeeded]
    split <;> exact le_refl _
  · simp [resetGame]


/-! ### C6: obstacle advance and recycling -/

theorem advancePipes_length (W H : ℚ) (rx rt : ℕ → ℚ) (ps : List Pipe) :
    ∀ j, (advancePipes W H rx rt j ps).length = ps.length := by
  induction ps with
  | nil => intro j; rfl
  | cons p rest ih => intro j; simp [advancePipes, ih]

theorem advancePipes_getElem (W H : ℚ) (rx rt : ℕ → ℚ) (ps : List Pipe) :
    ∀ j i, (advancePipes W H rx rt j ps)[i]? =
      (ps[i]?).map fun q => movePipe W H (rx (j + i)) (rt (j + i)) q := by
  induction ps with
  | nil => intro j i; simp [advancePipes]
  | cons p rest ih =>
    intro j i
    cases i with
    | zero => simp [advancePipes]
    | succ n =>
      have harith : j + 1 + n = j + (n + 1) := by omega
      simpa [advancePipes, harith] using ih (j + 1) n

/-- C6: the advance pass keeps the number of obstacles and each slot's
identity (slot `i` of the result is `movePipe` of slot `i` of the input);
`movePipe` decreases the horizontal position by exactly `PIPE_SPEED`, and
exactly the obstacles whose moved right edge is strictly left of `0` are
recycled in place with `x = W + a·120 + 60` — `W` plus a value in
`[60, 180)` when the draw `a` is in `[0, 1)` — a fresh `randomTopHeight`,
and `scored` reset to `false`. -/
theorem C6_advance (W H : ℚ) (rx rt : ℕ → ℚ) (ps : List Pipe) (i : ℕ) (a b : ℚ) (p : Pipe) :
    (advancePipes W H rx rt 0 ps).length = ps.length
  ∧ (advancePipes W H rx rt 0 ps)[i]? =
      (ps[i]?).map (fun q => movePipe W H (rx i) (rt i) q)
  ∧ (p.x - PIPE_SPEED + PIPE_WIDTH < 0 → 0 ≤ a → a < 1 →
      movePipe W H a b p =
        { x := W + a * 120 + 60, topHeight := randomTopHeight H b, scored := false }
      ∧ 60 ≤ (movePipe W H a b p).x - W ∧ (movePipe W H a b p).x - W < 180)
  ∧ (¬ (p.x - PIPE_SPEED + PIPE_WIDTH < 0) →
      movePipe W H a b p = { p with x := p.x - PIPE_SPEED }) := by
  refine ⟨advancePipes_length W H rx rt ps 0, ?_, ?_, ?_⟩
  · simpa using advancePipes_getElem W H rx rt ps 0 i
  · intro hrec h0 h1
    have hm : movePipe W H a b p =
        { x := W + a * 120 + 60, topHeight := randomTopHeight H b, scored := false } := by
      simp [movePipe, recyclePipe, hrec]
    refine ⟨hm, ?_, ?_⟩ <;> rw [hm]
    · show (60:ℚ) ≤ W + a * 120 + 60 - W
      linarith
    · show W + a * 120 + 60 - W < 180
      linarith
  · intro hrec
    simp [movePipe, recyclePipe, hrec]

/-- C6 witness: a one-pipe list; the pipe at `x = -80` is recycled, the pipe
at `x = 100` only moves left by `PIPE_SPEED`. -/
theorem C6_advance_witness :
    (advancePipes 400 800 (fun _ => 1/2) (fun _ => 1/3) 0
        [{ x := -80, topHeight := 100, scored := true }]).length = 1
  ∧ movePipe 400 800 (1/2) (1/3) { x := -80, topHeight := 100, scored := true } =
      { x := 400 + (1/2) * 120 + 60, topHeight := randomTopHeight 800 (1/3), scored := false }
  ∧ movePipe 400 800 (1/2) (1/3) { x := 100, topHeight := 100, scored := true } =
      { x := (100:ℚ) - PIPE_SPEED, topHeight := 100, scored := true } := by
  have h1 := C6_advance 400 800 (fun _ => 1/2) (fun _ => 1/3)
      [{ x := -80, topHeight := 100, scored := true }] 0 (1/2) (1/3)
      { x := -80, topHeight := 100, scored := true }
  have h2 := C6_advance 400 800 (fun _ => 1/2) (fun _ => 1/3)
      [{ x := -80, topHeight := 100, scored := true }] 0 (1/2) (1/3)
      { x := 100, topHeight := 100, scored := true }
  refine ⟨by simpa using h1.1,
    (h1.2.2.1 (by norm_num [PIPE_SPEED, PIPE_WIDTH]) (by norm_num) (by norm_num)).1, ?_⟩
  exact h2.2.2.2 (by norm_num [PIPE_SPEED, PIPE_WIDTH])

/-! ### C7: randomTopHeight range -/

/-- C7: with `minTop = 60` and `reservedBottomMargin = 200`, every value of
`randomTopHeight` with a draw in `[0, 1)` (and a screen tall enough for the
range to be non-empty) is an integer in `[60, H - 200)`; consequently every
obstacle's `topHeight` after initialization or recycling satisfies
`60 ≤ topHeight ≤ H - 200`. -/
theorem C7_randomTopHeight_range (W H r r1 r2 a b : ℚ) (p : Pipe)
    (h0 : 0 ≤ r) (h1 : r < 1) (hH : 260 < H) :
    (∃ n : ℤ, randomTopHeight H r = (n : ℚ))
  ∧ 60 ≤ randomTopHeight H r
  ∧ randomTopHeight H r < H - 200
  ∧ (0 ≤ r1 → r1 < 1 → 0 ≤ r2 → r2 < 1 →
      ∀ q ∈ initialPipes W H r1 r2, 60 ≤ q.topHeight ∧ q.topHeight ≤ H - 200)
  ∧ (0 ≤ b → b < 1 →
      ((movePipe W H a b p).topHeight = p.topHeight
        ∨ (60 ≤ (movePipe W H a b p).topHeight
            ∧ (movePipe W H a b p).topHeight ≤ H - 200))) := by
  refine ⟨⟨⌊r * (H - 260)⌋ + 60, ?_⟩,
    randomTopHeight_lower H r h0 hH, randomTopHeight_upper H r h1 hH, ?_, ?_⟩
  · rw [randomTopHeight_eq]; push_cast; ring
  · intro ha1 ha2 hb1 hb2 q hq
    simp only [initialPipes, List.mem_cons, List.mem_singleton, List.not_mem_nil, or_false] at hq
    rcases hq with hq | hq <;> subst hq
    · exact ⟨randomTopHeight_lower H r1 ha1 hH, le_of_lt (randomTopHeight_upper H r1 ha2 hH)⟩
    · exact ⟨randomTopHeight_lower H r2 hb1 hH, le_of_lt (randomTopHeight_upper H r2 hb2 hH)⟩
  · intro hb1 hb2
    by_cases hrec : p.x - PIPE_SPEED + PIPE_WIDTH < 0
    · right
      have hth : (movePipe W H a b p).topHeight = randomTopHeight H b := by
        simp [movePipe, recyclePipe, hrec]
      rw [hth]
      exact ⟨randomTopHeight_lower H b hb1 hH, le_of_lt (randomTopHeight_upper H b hb2 hH)⟩
    · left
      simp [movePipe, recyclePipe, hrec]

/-- C7 witness: concrete draws on an `800`-high screen. -/
theorem C7_randomTopHeight_range_witness :
    (∃ n : ℤ, randomTopHeight 800 (1/2) = (n : ℚ))
  ∧ 60 ≤ randomTopHeight 800 (1/2)
  ∧ randomTopHeight 800 (1/2) < 800 - 200
  ∧ (∀ q ∈ initialPipes 400 800 (1/2) (1/3),
      60 ≤ q.topHeight ∧ q.topHeight ≤ 800 - 200) := by
  have h := C7_randomTopHeight_range 400 800 (1/2) (1/2) (1/3) 0 0
      { x := 0, topHeight := 0, scored := false }
      (by norm_num) (by norm_num) (by norm_num)
  exact ⟨h.1, h.2.1, h.2.2.1,
    h.2.2.2.1 (by norm_num) (by norm_num) (by norm_num) (by norm_num)⟩


/-! ### C3: scoring in the collision/scoring pass -/

theorem collisionScoringPass_pipes (W H y : ℚ) (ps : List Pipe) :
    (collisionScoringPass W H y ps).pipes =
      ps.map (fun p =>
        { x := p.x, topHeight := p.topHeight,
          scored := p.scored || decide (birdCenterX W > p.x + PIPE_WIDTH) }) := by
  induction ps with
  | nil => rfl
  | cons p rest ih =>
    simp only [collisionScoringPass, List.map_cons]
    split
    next hcond =>
      obtain ⟨hs, hgt⟩ := hcond
      simp [ih, hs, hgt]
    next hcond =>
      rcases p with ⟨px, pt, psc⟩
      cases psc
      · simp only [Bool.false_eq_true, not_false_eq_true, true_and, not_lt] at hcond ⊢
        simp [ih, hcond, not_lt.mpr hcond]
      · simp [ih]

theorem collisionScoringPass_gained (W H y : ℚ) (ps : List Pipe) :
    (collisionScoringPass W H y ps).gained =
      ps.countP (fun p => !p.scored && decide (birdCenterX W > p.x + PIPE_WIDTH)) := by
  induction ps with
  | nil => rfl
  | cons p rest ih =>
    simp only [collisionScoringPass, List.countP_cons]
    split
    next hcond =>
      obtain ⟨hs, hgt⟩ := hcond
      simp [ih, hs, hgt, Nat.add_comm]
    next hcond =>
      have hz : (!p.scored && decide (birdCenterX W > p.x + PIPE_WIDTH)) = false := by
        rcases p with ⟨px, pt, psc⟩
        cases psc
        · simp only [Bool.false_eq_true, not_false_eq_true, true_and] at hcond
          simp [hcond]
        · simp
      simp [ih, hz]

theorem collisionScoringPass_collided (W H y : ℚ) (ps : List Pipe) :
    (collisionScoringPass W H y ps).collided = ps.any (pipeCollides W H y) := by
  induction ps with
  | nil => rfl
  | cons p rest ih =>
    simp only [collisionScoringPass, List.any_cons]
    split <;> simp [ih]

/-- C3: each not-yet-scored obstacle scores exactly when the bird's
horizontal center is strictly beyond its right edge — the pass maps each
obstacle to one with the same position and height and `scored` ORed with
that test — and `gained` counts exactly the obstacles scoring now, so each
scores at most once until a recycle resets the flag (a second pass over the
output, at any bird height, gains nothing more).  A collision in the same
tick does not suppress the increment: when the floor is not hit, the tick's
final score is the old score plus `gained` even when the pass reports a
collision, and the collision still ends the game. -/
theorem C3_scoring (W H y yy : ℚ) (c : ℕ) (rx rt : ℕ → ℚ) (ps : List Pipe) (s : GameState) :
    (collisionScoringPass W H y ps).pipes =
      ps.map (fun p =>
        { x := p.x, topHeight := p.topHeight,
          scored := p.scored || decide (birdCenterX W > p.x + PIPE_WIDTH) })
  ∧ (collisionScoringPass W H y ps).gained =
      ps.countP (fun p => !p.scored && decide (birdCenterX W > p.x + PIPE_WIDTH))
  ∧ (collisionScoringPass W H yy (collisionScoringPass W H y ps).pipes).gained = 0
  ∧ ((integrate H s.birdY s.birdV).floorHit = false →
      (tick W H c rx rt s).score =
        s.score + (collisionScoringPass W H (integrate H s.birdY s.birdV).y
            (advancePipes W H rx rt 0 s.pipes)).gained
      ∧ ((collisionScoringPass W H (integrate H s.birdY s.birdV).y
            (advancePipes W H rx rt 0 s.pipes)).collided = true →
          (tick W H c rx rt s).gameOver = true)) := by
  refine ⟨collisionScoringPass_pipes W H y ps, collisionScoringPass_gained W H y ps, ?_, ?_⟩
  · rw [collisionScoringPass_gained, collisionScoringPass_pipes, List.countP_map]
    rw [List.countP_eq_zero]
    intro p hp
    cases hd : decide (birdCenterX W > p.x + PIPE_WIDTH) <;>
      simp [Function.comp, hd]
  · intro hnf
    constructor
    · simp only [tick, hnf, Bool.false_eq_true, if_false]
      split
      · simp only [triggerGameOver]
        split <;> (try simp) <;> omega
      · split <;> (try simp) <;> omega
    · intro hcol
      simp only [tick, hnf, Bool.false_eq_true, if_false, hcol, if_true]
      simp [triggerGameOver]


/-- C3 witness: one obstacle at `x = 0` whose right edge the bird's center
(`120` on a `400`-wide screen) has passed; and a tick from mid-air with no
obstacles. -/
theorem C3_scoring_witness :
    (collisionScoringPass 400 800 300 [{ x := 0, topHeight := 100, scored := false }]).pipes =
      [{ x := 0, topHeight := 100, scored := true }]
  ∧ (collisionScoringPass 400 800 300 [{ x := 0, topHeight := 100, scored := false }]).gained = 1
  ∧ (tick 400 800 0 (fun _ => 0) (fun _ => 0)
      { running := true, gameOver := false, score := 0, best := 5,
        birdY := 300, birdV := 0, pipes := [] }).score = 0 := by
  have h := C3_scoring 400 800 300 300 0 (fun _ => 0) (fun _ => 0)
      [{ x := 0, topHeight := 100, scored := false }]
      { running := true, gameOver := false, score := 0, best := 5,
        birdY := 300, birdV := 0, pipes := [] }
  have hnf : (integrate 800 (300:ℚ) 0).floorHit = false := by
    simp [integrate, GRAVITY, BIRD_SIZE]
    norm_num
  refine ⟨?_, ?_, ?_⟩
  · rw [h.1]
    norm_num [birdCenterX, BIRD_X, BIRD_SIZE, PIPE_WIDTH]
  · rw [h.2.1]
    norm_num [birdCenterX, BIRD_X, BIRD_SIZE, PIPE_WIDTH]
  · rw [(h.2.2.2 hnf).1]
    norm_num [advancePipes, collisionScoringPass]

